import Mathlib

/-!
Verification development for the cricgeo repository.

Part 1 embeds the seeding command `geo/management/commands/seed_stadiums.py`
over the models it imports from `geo/models.py` (module `geo.models`).

Every coordinate literal of the source has at most four decimal places, so
coordinates are represented exactly as fixed-point integers in units of
`10⁻⁴` degrees (`51.5281` degrees is the integer `515281`, the seed constant
`delta = 0.0003` is the integer `3`). A GEOS `Point(x, y)` is a pair whose
first component is the x coordinate (longitude) and second the y coordinate
(latitude). Midpoint and centroid conditions are stated on doubled
coordinates, so no division is needed and the arithmetic stays exact.
-/

abbrev GPoint := ℤ × ℤ

deriving instance DecidableEq for Except

/-- `Stadium` as declared in `geo/models.py`: fields `name`, `city`, `country`,
`location`, plus the implicit auto primary key. -/
structure StadiumRec where
  id : Nat
  name : String
  city : Option String
  country : Option String
  location : Option GPoint
  deriving DecidableEq

/-- `Pitch` as declared in `geo/models.py`: fields `stadium` (foreign key),
`name`, `area`, `centroid`, `surface_type`, `current_condition`. -/
structure PitchRec where
  id : Nat
  stadium : Nat
  name : String
  area : Option (List GPoint)
  centroid : Option GPoint
  surface_type : String
  current_condition : Option String
  deriving DecidableEq

/-- Database state over the two seeded tables, with auto-increment counters. -/
structure SeedDB where
  stadiums : List StadiumRec
  pitches : List PitchRec
  nextStadiumId : Nat
  nextPitchId : Nat
  deriving DecidableEq

/-- One entry of the hardcoded venue table: `coords` is `(latitude, longitude)`
exactly as listed in the source, in units of `10⁻⁴` degrees. -/
structure Venue where
  name : String
  country : String
  coords : ℤ × ℤ
  deriving DecidableEq

/-- The ten hardcoded venues of `seed_stadiums.py`. -/
def stadiums_data : List Venue :=
  [ ⟨"Lord\x27s Cricket Ground", "England", (515281, -1720)⟩,
    ⟨"Melbourne Cricket Ground", "Australia", (-378199, 1449834)⟩,
    ⟨"Eden Park", "New Zealand", (-368485, 1747670)⟩,
    ⟨"The Oval", "England", (514826, -1122)⟩,
    ⟨"SCG - Sydney Cricket Ground", "Australia", (-338912, 1512241)⟩,
    ⟨"Wellington Regional Stadium", "New Zealand", (-413048, 1747815)⟩,
    ⟨"Old Trafford Cricket Ground", "England", (534560, -22910)⟩,
    ⟨"Kensington Oval", "Barbados", (130936, -596100)⟩,
    ⟨"Queen\x27s Park Oval", "Trinidad & Tobago", (106541, -615168)⟩,
    ⟨"Newlands", "South Africa", (-339460, 184647)⟩ ]

/-- `delta = 0.0003` degrees, the half-side of the sample pitch polygon. -/
def delta : ℤ := 3

/-- The five-coordinate polygon ring built around `(lon, lat)` in the seed
command, coordinates in `(x, y) = (lon, lat)` order. -/
def seedPolygon (lat lon : ℤ) : List GPoint :=
  [ (lon - delta, lat - delta),
    (lon - delta, lat + delta),
    (lon + delta, lat + delta),
    (lon + delta, lat - delta),
    (lon - delta, lat - delta) ]

/-- The pitches of `db` that belong to stadium `sid` and are named "Main Pitch". -/
def mainPitchesFor (db : SeedDB) (sid : Nat) : List PitchRec :=
  db.pitches.filter (fun p => p.stadium == sid && p.name == "Main Pitch")

/-- The stadiums of `db` named `n`. -/
def stadiumsByName (db : SeedDB) (n : String) : List StadiumRec :=
  db.stadiums.filter (fun s => s.name == n)

/-- The Stadium record `get_or_create` builds from its `defaults` on creation:
`city` is never set, `location` is `Point(lon, lat)`. -/
def createdStadium (db : SeedDB) (v : Venue) : StadiumRec :=
  { id := db.nextStadiumId, name := v.name, city := none,
    country := some v.country, location := some (v.coords.2, v.coords.1) }

/-- The Pitch record `Pitch.objects.create` builds on first creation of the
stadium: the polygon around the venue coordinates, centroid equal to
`stadium.location`. -/
def createdPitch (db : SeedDB) (v : Venue) : PitchRec :=
  { id := db.nextPitchId, stadium := (createdStadium db v).id, name := "Main Pitch",
    area := some (seedPolygon v.coords.1 v.coords.2),
    centroid := (createdStadium db v).location, surface_type := "grass",
    current_condition := some "balanced" }

/-- The database after the creation branch inserted both records. -/
def createdDB (db : SeedDB) (v : Venue) : SeedDB :=
  { stadiums := db.stadiums ++ [createdStadium db v],
    pitches := db.pitches ++ [createdPitch db v],
    nextStadiumId := db.nextStadiumId + 1, nextPitchId := db.nextPitchId + 1 }

/-- One loop iteration of `Command.handle`: `Stadium.objects.get_or_create`
keyed on `name` (creation uses the `defaults`), followed, only on creation, by
`Pitch.objects.create`, and one output message. `get_or_create` raises
`MultipleObjectsReturned` when more than one record matches the lookup. -/
def processVenue (db : SeedDB) (v : Venue) : Except String (SeedDB × String) :=
  match stadiumsByName db v.name with
  | [] => Except.ok (createdDB db v, "Created stadium and pitch: " ++ v.name)
  | [s] => Except.ok (db, "Stadium already exists: " ++ s.name)
  | _ :: _ :: _ => Except.error ("MultipleObjectsReturned: " ++ v.name)

/-- The loop of `Command.handle` over a venue list, collecting the messages. -/
def runSeed : SeedDB → List Venue → Except String (SeedDB × List String)
  | db, [] => Except.ok (db, [])
  | db, v :: vs =>
    match processVenue db v with
    | Except.error e => Except.error e
    | Except.ok (db1, m) =>
      match runSeed db1 vs with
      | Except.error e => Except.error e
      | Except.ok (db2, ms) => Except.ok (db2, m :: ms)

/-- The whole seed command, run against a database state. -/
def seed (db : SeedDB) : Except String (SeedDB × List String) :=
  runSeed db stadiums_data

/-- The empty database state. -/
def emptyDB : SeedDB := ⟨[], [], 1, 1⟩

/-- The database after one seed run from empty. -/
def seededDB : SeedDB :=
  match seed emptyDB with
  | Except.ok (d, _) => d
  | Except.error _ => emptyDB

/-- The messages of the first seed run from empty. -/
def seededMsgs : List String :=
  match seed emptyDB with
  | Except.ok (_, m) => m
  | Except.error _ => []

/-- The messages of a second seed run. -/
def secondMsgs : List String :=
  match seed seededDB with
  | Except.ok (_, m) => m
  | Except.error _ => []

/-- `ring` is a closed five-coordinate ring whose four distinct consecutive
corners form a rectangle: the two diagonals share their midpoint and have equal
length. -/
def isRectRing (ring : List GPoint) : Bool :=
  match ring with
  | [p1, p2, p3, p4, p5] =>
    p5 == p1 &&
    p1 != p2 && p1 != p3 && p1 != p4 && p2 != p3 && p2 != p4 && p3 != p4 &&
    p1.1 + p3.1 == p2.1 + p4.1 && p1.2 + p3.2 == p2.2 + p4.2 &&
    (p3.1 - p1.1) * (p3.1 - p1.1) + (p3.2 - p1.2) * (p3.2 - p1.2)
      == (p4.1 - p2.1) * (p4.1 - p2.1) + (p4.2 - p2.2) * (p4.2 - p2.2)
  | _ => false

/-- The centroid of the rectangle described by the closed ring is `c`: `c` is
the midpoint of a diagonal (stated on doubled coordinates). -/
def rectCenterIs (ring : List GPoint) (c : GPoint) : Bool :=
  match ring with
  | [p1, _, p3, _, _] => p1.1 + p3.1 == 2 * c.1 && p1.2 + p3.2 == 2 * c.2
  | _ => false

/-- The pitch has a rectangular boundary ring whose centroid is the point `loc`. -/
def pitchRectOk (p : PitchRec) (loc : Option GPoint) : Bool :=
  match p.area, loc with
  | some ring, some c => isRectRing ring && rectCenterIs ring c
  | _, _ => false

/-- `ring` is a closed five-coordinate ring (first coordinate equal to the
last) whose four distinct corners are exactly the corners of the axis-aligned
square of side `side` centered at `(cx, cy)`, in `(lon, lat)` order (stated on
doubled coordinates). -/
def squareRingCheck (ring : List GPoint) (cx cy side : ℤ) : Bool :=
  match ring with
  | [p1, p2, p3, p4, p5] =>
    p5 == p1 &&
    p1 != p2 && p1 != p3 && p1 != p4 && p2 != p3 && p2 != p4 && p3 != p4 &&
    [ (2 * p1.1, 2 * p1.2), (2 * p2.1, 2 * p2.2),
      (2 * p3.1, 2 * p3.2), (2 * p4.1, 2 * p4.2) ]
      == [ (2 * cx - side, 2 * cy - side), (2 * cx - side, 2 * cy + side),
           (2 * cx + side, 2 * cy + side), (2 * cx + side, 2 * cy - side) ]
  | _ => false

/-- C1: starting from a state with no Stadium or Pitch records, running the
seed command twice leaves exactly ten Stadium and ten Pitch records, and the
second run returns the unchanged database state: it creates no record and
changes no existing record. -/
theorem seed_twice_idempotent :
    seed emptyDB = Except.ok (seededDB, seededMsgs) ∧
    seededDB.stadiums.length = 10 ∧
    seededDB.pitches.length = 10 ∧
    seed seededDB = Except.ok (seededDB, secondMsgs) := by
  decide

/-- C2: for every Stadium the seed command creates, exactly one Pitch named
"Main Pitch" belongs to it, its boundary polygon is a four-cornered rectangle,
and the centroid of that rectangle equals the stadium location point. -/
theorem seed_main_pitch_rect :
    ∀ s ∈ seededDB.stadiums,
      (mainPitchesFor seededDB s.id).length = 1 ∧
      ∀ p ∈ mainPitchesFor seededDB s.id, pitchRectOk p s.location = true := by
  decide

/-- C10: for every venue, the stored Stadium location is `(longitude, latitude)`
— the venue table lists latitude first — and the pitch polygon is a closed
five-coordinate ring whose four distinct corners form an axis-aligned square of
side `0.0006` degrees (`6` units of `10⁻⁴` degrees) centered on that location. -/
theorem seed_coordinates_and_square :
    ∀ v ∈ stadiums_data,
      (stadiumsByName seededDB v.name).length = 1 ∧
      ∀ s ∈ stadiumsByName seededDB v.name,
        s.location = some (v.coords.2, v.coords.1) ∧
        ∀ p ∈ mainPitchesFor seededDB s.id,
          squareRingCheck (p.area.getD []) v.coords.2 v.coords.1 6 = true := by
  decide


/-! ### Per-venue step behaviour (C3) and error behaviour (C4) -/

theorem count_createdDB (db : SeedDB) (v : Venue) (n : String) :
    (stadiumsByName (createdDB db v) n).length
      = (stadiumsByName db n).length + (if v.name = n then 1 else 0) := by
  unfold stadiumsByName createdDB createdStadium
  by_cases hn : v.name = n <;>
    simp [List.filter_append, List.filter_cons, hn]

theorem processVenue_ok (db : SeedDB) (v : Venue)
    (h : (stadiumsByName db v.name).length ≤ 1) :
    ∃ db' m, processVenue db v = Except.ok (db', m) ∧
      ∀ n, (stadiumsByName db' n).length ≤ max (stadiumsByName db n).length 1 := by
  cases hf : stadiumsByName db v.name with
  | nil =>
    refine ⟨createdDB db v, _, by unfold processVenue; rw [hf], ?_⟩
    intro n
    rw [count_createdDB]
    by_cases hn : v.name = n
    · rw [hn] at hf
      simp [hf, hn]
    · simp [hn, le_max_left]
  | cons s tail =>
    cases tail with
    | nil =>
      exact ⟨db, _, by unfold processVenue; rw [hf], fun n => le_max_left _ _⟩
    | cons s2 tail2 =>
      rw [hf] at h
      simp at h

theorem runSeed_ok (vs : List Venue) :
    ∀ db : SeedDB, (∀ v ∈ vs, (stadiumsByName db v.name).length ≤ 1) →
    ∃ db' msgs, runSeed db vs = Except.ok (db', msgs) := by
  induction vs with
  | nil => exact fun db _ => ⟨db, [], rfl⟩
  | cons v vs ih =>
    intro db h
    obtain ⟨db1, m, hp, hcount⟩ :=
      processVenue_ok db v (h v (List.mem_cons_self v vs))
    obtain ⟨db2, ms, hr⟩ := ih db1 (fun w hw =>
      le_trans (hcount w.name)
        (max_le (h w (List.mem_cons_of_mem v hw)) (by omega)))
    exact ⟨db2, m :: ms, by simp [runSeed, hp, hr]⟩

/-- C3: in each loop iteration, the seed command inserts a Stadium record if
and only if no Stadium with that venue name already exists, inserts the Pitch
record exactly in the iteration in which the Stadium is first created, and
emits the creation message when both records were created, otherwise the
already-exists message; and a completed run emits exactly one message per
venue. -/
theorem seed_per_venue_step :
    (∀ (db : SeedDB) (v : Venue) (db' : SeedDB) (msg : String),
      processVenue db v = Except.ok (db', msg) →
      ((stadiumsByName db v.name = [] →
        db'.stadiums = db.stadiums ++ [createdStadium db v] ∧
        (createdStadium db v).name = v.name ∧
        db'.pitches = db.pitches ++ [createdPitch db v] ∧
        (createdPitch db v).name = "Main Pitch" ∧
        msg = "Created stadium and pitch: " ++ v.name) ∧
       (stadiumsByName db v.name ≠ [] →
        db'.stadiums = db.stadiums ∧ db'.pitches = db.pitches ∧
        msg = "Stadium already exists: " ++ v.name))) ∧
    (∀ (db : SeedDB) (vs : List Venue) (db' : SeedDB) (msgs : List String),
      runSeed db vs = Except.ok (db', msgs) → msgs.length = vs.length) := by
  constructor
  · intro db v db' msg h
    unfold processVenue at h
    split at h
    next hf =>
      simp only [Except.ok.injEq, Prod.mk.injEq] at h
      obtain ⟨hdb, hmsg⟩ := h
      subst hdb hmsg
      constructor
      · intro _
        exact ⟨rfl, rfl, rfl, rfl, rfl⟩
      · intro hne
        exact absurd hf hne
    next s hf =>
      simp only [Except.ok.injEq, Prod.mk.injEq] at h
      obtain ⟨hdb, hmsg⟩ := h
      subst hdb hmsg
      have hs : s ∈ stadiumsByName db v.name := by
        rw [hf]; exact List.mem_singleton_self s
      have hname : s.name = v.name := by
        have hmem := (List.mem_filter.mp hs).2
        exact eq_of_beq hmem
      constructor
      · intro h0
        rw [h0] at hf
        exact absurd hf (by simp)
      · intro _
        exact ⟨rfl, rfl, by rw [hname]⟩
    next s s2 tail hf =>
      exact Except.noConfusion h
  · intro db vs
    induction vs generalizing db with
    | nil =>
      intro db' msgs h
      unfold runSeed at h
      simp only [Except.ok.injEq, Prod.mk.injEq] at h
      rw [← h.2]
      rfl
    | cons v vs ih =>
      intro db' msgs h
      unfold runSeed at h
      split at h
      next e heq => exact Except.noConfusion h
      next db1 m heq =>
        split at h
        next e heq2 => exact Except.noConfusion h
        next db2 ms heq2 =>
          simp only [Except.ok.injEq, Prod.mk.injEq] at h
          rw [← h.2]
          simp [ih db1 db2 ms heq2]

/-- The venue used for concrete witnesses. -/
def newlandsVenue : Venue := ⟨"Newlands", "South Africa", (-339460, 184647)⟩

/-- The database produced by one `processVenue` step from empty. -/
def stepDB : SeedDB :=
  match processVenue emptyDB newlandsVenue with
  | Except.ok (d, _) => d
  | Except.error _ => emptyDB

/-- The message of one `processVenue` step from empty. -/
def stepMsg : String :=
  match processVenue emptyDB newlandsVenue with
  | Except.ok (_, m) => m
  | Except.error _ => ""

/-- Witness for C3 at a concrete step from the empty database. -/
theorem seed_per_venue_step_witness :
    ((stadiumsByName emptyDB newlandsVenue.name = [] →
      stepDB.stadiums = emptyDB.stadiums ++ [createdStadium emptyDB newlandsVenue] ∧
      (createdStadium emptyDB newlandsVenue).name = newlandsVenue.name ∧
      stepDB.pitches = emptyDB.pitches ++ [createdPitch emptyDB newlandsVenue] ∧
      (createdPitch emptyDB newlandsVenue).name = "Main Pitch" ∧
      stepMsg = "Created stadium and pitch: " ++ newlandsVenue.name) ∧
     (stadiumsByName emptyDB newlandsVenue.name ≠ [] →
      stepDB.stadiums = emptyDB.stadiums ∧ stepDB.pitches = emptyDB.pitches ∧
      stepMsg = "Stadium already exists: " ++ newlandsVenue.name)) ∧
    [stepMsg].length = [newlandsVenue].length :=
  ⟨seed_per_venue_step.1 emptyDB newlandsVenue stepDB stepMsg (by decide),
   seed_per_venue_step.2 emptyDB [newlandsVenue] stepDB [stepMsg] (by decide)⟩

/-- A prior database state holding two Stadium records with the same venue
name — possible because `geo/models.py` puts no uniqueness constraint on
`Stadium.name`. -/
def dupDB : SeedDB :=
  ⟨[⟨1, "Eden Park", none, none, none⟩, ⟨2, "Eden Park", none, none, none⟩], [], 3, 1⟩

/-- Counterexample to C4 as stated: from the prior state `dupDB` the seed run
raises `MultipleObjectsReturned` at the existence check, so it is not true
that for every prior database state the run never raises an error. -/
theorem seed_duplicate_name_raises :
    seed dupDB = Except.error "MultipleObjectsReturned: Eden Park" := by
  decide

/-- C4 (amended): the pre-check is by stadium name, which carries no
uniqueness constraint in `geo/models.py`; for every prior database state in
which at most one Stadium bears each venue name, each check-then-create step
finds the existing Stadium or creates a new one and the run raises no
error. -/
theorem seed_no_error_when_names_unique (db : SeedDB)
    (h : ∀ v ∈ stadiums_data, (stadiumsByName db v.name).length ≤ 1) :
    (seed db).isOk = true := by
  obtain ⟨db2, msgs, hrun⟩ := runSeed_ok stadiums_data db h
  unfold seed
  rw [hrun]
  rfl

/-- Witness for the amended C4 at the empty database. -/
theorem seed_no_error_witness :
    (seed emptyDB).isOk = true :=
  seed_no_error_when_names_unique emptyDB (by decide)

/-- The Stadium record the seed creates for the tenth venue. -/
def newlandsStadium : StadiumRec :=
  ⟨10, "Newlands", none, some "South Africa", some (184647, -339460)⟩

/-- The Pitch record the seed creates for the tenth venue. -/
def newlandsPitch : PitchRec :=
  ⟨10, 10, "Main Pitch", some (seedPolygon (-339460) 184647),
   some (184647, -339460), "grass", some "balanced"⟩

/-- Witness for C2 at a concrete stadium of the seeded database. -/
theorem seed_main_pitch_rect_witness :
    (mainPitchesFor seededDB newlandsStadium.id).length = 1 ∧
    pitchRectOk newlandsPitch newlandsStadium.location = true :=
  ⟨(seed_main_pitch_rect newlandsStadium (by decide)).1,
   (seed_main_pitch_rect newlandsStadium (by decide)).2 newlandsPitch (by decide)⟩

/-- Witness for C10 at a concrete venue. -/
theorem seed_coordinates_and_square_witness :
    (stadiumsByName seededDB newlandsVenue.name).length = 1 ∧
    newlandsStadium.location = some (newlandsVenue.coords.2, newlandsVenue.coords.1) ∧
    squareRingCheck (newlandsPitch.area.getD [])
      newlandsVenue.coords.2 newlandsVenue.coords.1 6 = true := by
  have h := seed_coordinates_and_square newlandsVenue (by decide)
  have h2 := h.2 newlandsStadium (by decide)
  exact ⟨h.1, h2.1, h2.2 newlandsPitch (by decide)⟩

/-!
### The `geo/models.py` schema descriptor (C5)

`geo.models` resolves to the module file `geo/models.py` (the directory
`geo/models/` has no `__init__.py`, so the module shadows it), and both
`geo/admin.py` and the seed command import `Stadium` and `Pitch` from it.
The descriptor below transcribes the field declarations of that file.
-/

structure FieldSpec where
  fname : String
  unique : Bool
  deriving DecidableEq

/-- The fields of `Stadium` in `geo/models.py`, none declared unique. -/
def modelsPyStadiumFields : List FieldSpec :=
  [⟨"name", false⟩, ⟨"city", false⟩, ⟨"country", false⟩, ⟨"location", false⟩]

/-- The fields of `Pitch` in `geo/models.py`, none declared unique. -/
def modelsPyPitchFields : List FieldSpec :=
  [⟨"stadium", false⟩, ⟨"name", false⟩, ⟨"area", false⟩, ⟨"centroid", false⟩,
   ⟨"surface_type", false⟩, ⟨"current_condition", false⟩]

/-- C5: the Stadium and Pitch definitions imported from `geo.models` carry
exactly the fields name/city/country/location and
stadium/name/area/centroid/surface_type/current_condition, with no slug,
capacity, boundary, timestamp, or length/width fields and no uniqueness
constraint on any field; in particular a seeded Stadium has no slug. -/
theorem modelsPy_fields_exact :
    modelsPyStadiumFields.map FieldSpec.fname = ["name", "city", "country", "location"] ∧
    modelsPyPitchFields.map FieldSpec.fname
      = ["stadium", "name", "area", "centroid", "surface_type", "current_condition"] ∧
    (modelsPyStadiumFields ++ modelsPyPitchFields).all (fun f => f.unique == false) = true ∧
    (["slug", "capacity", "boundary", "created_at", "updated_at",
      "length_m", "width_m"].all (fun n =>
        (((modelsPyStadiumFields ++ modelsPyPitchFields).map FieldSpec.fname).contains n)
          == false)) = true := by
  decide

/-!
### The `geo/models/cric.py` schema (C6 - C9)

Records carry the primary key and the fields the claims are about; foreign
keys are ids, nullable ones are `Option`. Inserts enforce the declared
uniqueness constraints (`Stadium.slug` unique, `unique_together` on
`(stadium, key)`, `(inning, number)`, `(pitch, date)`); deletes implement the
declared `on_delete` behaviour (`CASCADE` removes the children, `SET_NULL`
nulls the reference).
-/

structure CStadium where
  id : Nat
  name : String
  slug : String
  deriving DecidableEq

structure CFeature where
  id : Nat
  stadium : Nat
  key : String
  value : String
  deriving DecidableEq

structure CPitch where
  id : Nat
  stadium : Nat
  deriving DecidableEq

structure CSnapshot where
  id : Nat
  pitch : Nat
  deriving DecidableEq

structure CSoilSample where
  id : Nat
  pitch : Nat
  deriving DecidableEq

structure CDevice where
  id : Nat
  uid : String
  pitch : Option Nat
  deriving DecidableEq

structure CReading where
  id : Nat
  device : Nat
  deriving DecidableEq

structure CImage where
  id : Nat
  pitch : Option Nat
  deriving DecidableEq

structure CMatch where
  id : Nat
  pitch : Option Nat
  stadium : Option Nat
  deriving DecidableEq

structure COver where
  id : Nat
  inning : Nat
  number : Nat
  deriving DecidableEq

structure CMetric where
  id : Nat
  pitch : Nat
  date : String
  deriving DecidableEq

/-- Database state over the `cric.py` tables the claims touch. -/
structure CricDB where
  stadiums : List CStadium
  features : List CFeature
  pitches : List CPitch
  snapshots : List CSnapshot
  soilSamples : List CSoilSample
  devices : List CDevice
  readings : List CReading
  satImages : List CImage
  camImages : List CImage
  matchList : List CMatch
  overs : List COver
  metrics : List CMetric
  deriving DecidableEq

/-- Insert a `cric.Stadium`: rejected when the unique `slug` already exists. -/
def insertCricStadium (db : CricDB) (s : CStadium) : CricDB × Bool :=
  if db.stadiums.any (fun t => t.slug == s.slug) then (db, false)
  else ({ db with stadiums := db.stadiums ++ [s] }, true)

/-- Insert a `StadiumFeature`: rejected when `(stadium, key)` already exists. -/
def insertFeature (db : CricDB) (f : CFeature) : CricDB × Bool :=
  if db.features.any (fun g => g.stadium == f.stadium && g.key == f.key) then (db, false)
  else ({ db with features := db.features ++ [f] }, true)

/-- Insert an `Over`: rejected when `(inning, number)` already exists. -/
def insertOver (db : CricDB) (o : COver) : CricDB × Bool :=
  if db.overs.any (fun q => q.inning == o.inning && q.number == o.number) then (db, false)
  else ({ db with overs := db.overs ++ [o] }, true)

/-- Insert a `PitchMetric`: rejected when `(pitch, date)` already exists. -/
def insertMetric (db : CricDB) (m : CMetric) : CricDB × Bool :=
  if db.metrics.any (fun k => k.pitch == m.pitch && k.date == m.date) then (db, false)
  else ({ db with metrics := db.metrics ++ [m] }, true)

/-- Whether the optional pitch reference points into `pids`. -/
def optMem (o : Option Nat) (pids : List Nat) : Bool :=
  match o with
  | some x => pids.contains x
  | none => false

/-- `SET_NULL` on a device when its pitch is among the deleted ones. -/
def nullDevicePitch (pids : List Nat) (d : CDevice) : CDevice :=
  if optMem d.pitch pids then { d with pitch := none } else d

/-- `SET_NULL` on a match for a deleted stadium and deleted pitches. -/
def nullMatchRefs (pids : List Nat) (sid : Option Nat) (m : CMatch) : CMatch :=
  { m with
    stadium := if sid.isSome && m.stadium == sid then none else m.stadium,
    pitch := if optMem m.pitch pids then none else m.pitch }

/-- Deleting the pitches in `pids` with all declared `on_delete` behaviour:
`CASCADE` on snapshots, soil samples, satellite and camera images, metrics;
`SET_NULL` on devices and matches. `sid` is additionally the stadium being
deleted, when the pitch deletion is part of a stadium cascade. -/
def deletePitchSet (db : CricDB) (pids : List Nat) (sid : Option Nat) : CricDB :=
  { db with
    stadiums := db.stadiums.filter (fun s => !(some s.id == sid)),
    features := db.features.filter (fun f => !(some f.stadium == sid)),
    pitches := db.pitches.filter (fun p => !(pids.contains p.id)),
    snapshots := db.snapshots.filter (fun s => !(pids.contains s.pitch)),
    soilSamples := db.soilSamples.filter (fun s => !(pids.contains s.pitch)),
    satImages := db.satImages.filter (fun i => !(optMem i.pitch pids)),
    camImages := db.camImages.filter (fun i => !(optMem i.pitch pids)),
    devices := db.devices.map (nullDevicePitch pids),
    matchList := db.matchList.map (nullMatchRefs pids sid),
    metrics := db.metrics.filter (fun k => !(pids.contains k.pitch)) }

/-- Deleting one `Pitch`. -/
def deleteCricPitch (db : CricDB) (pid : Nat) : CricDB :=
  deletePitchSet db [pid] none

/-- The ids of the pitches belonging to stadium `sid`. -/
def pitchIdsOfStadium (db : CricDB) (sid : Nat) : List Nat :=
  (db.pitches.filter (fun p => p.stadium == sid)).map CPitch.id

/-- Deleting a `Stadium`: its features and pitches cascade, and the pitch
cascade in turn removes the pitches' children; matches null both references. -/
def deleteCricStadium (db : CricDB) (sid : Nat) : CricDB :=
  deletePitchSet db (pitchIdsOfStadium db sid) (some sid)

/-- Deleting a `SensorDevice`: its readings cascade. -/
def deleteDevice (db : CricDB) (did : Nat) : CricDB :=
  { db with
    devices := db.devices.filter (fun d => !(d.id == did)),
    readings := db.readings.filter (fun r => !(r.device == did)) }

/-- C6: inserting a second Stadium with an existing slug, a second
StadiumFeature with an existing `(stadium, key)` pair, a second Over with an
existing `(inning, number)` pair, or a second PitchMetric with an existing
`(pitch, date)` pair is rejected by the uniqueness constraint, leaving the
stored records unchanged. -/
theorem unique_constraints_reject :
    (∀ (db : CricDB) (s t : CStadium), t ∈ db.stadiums → t.slug = s.slug →
      insertCricStadium db s = (db, false)) ∧
    (∀ (db : CricDB) (f g : CFeature), g ∈ db.features →
      g.stadium = f.stadium → g.key = f.key → insertFeature db f = (db, false)) ∧
    (∀ (db : CricDB) (o q : COver), q ∈ db.overs →
      q.inning = o.inning → q.number = o.number → insertOver db o = (db, false)) ∧
    (∀ (db : CricDB) (m k : CMetric), k ∈ db.metrics →
      k.pitch = m.pitch → k.date = m.date → insertMetric db m = (db, false)) := by
  refine ⟨?_, ?_, ?_, ?_⟩
  · intro db s t ht hslug
    have hc : db.stadiums.any (fun t => t.slug == s.slug) = true :=
      List.any_eq_true.mpr ⟨t, ht, by simp [hslug]⟩
    simp [insertCricStadium, hc]
  · intro db f g hg h1 h2
    have hc : db.features.any (fun g => g.stadium == f.stadium && g.key == f.key) = true :=
      List.any_eq_true.mpr ⟨g, hg, by simp [h1, h2]⟩
    simp [insertFeature, hc]
  · intro db o q hq h1 h2
    have hc : db.overs.any (fun q => q.inning == o.inning && q.number == o.number) = true :=
      List.any_eq_true.mpr ⟨q, hq, by simp [h1, h2]⟩
    simp [insertOver, hc]
  · intro db m k hk h1 h2
    have hc : db.metrics.any (fun k => k.pitch == m.pitch && k.date == m.date) = true :=
      List.any_eq_true.mpr ⟨k, hk, by simp [h1, h2]⟩
    simp [insertMetric, hc]

/-- C7: deleting a Stadium deletes every Pitch belonging to it, the deletion
is total (no error) with Matches referencing the Stadium, and each such Match
survives with its stadium reference set to null. -/
theorem stadium_delete_cascade :
    ∀ (db : CricDB) (sid : Nat),
      (∀ p ∈ (deleteCricStadium db sid).pitches, p.stadium ≠ sid) ∧
      ((deleteCricStadium db sid).matchList.length = db.matchList.length) ∧
      (∀ m ∈ db.matchList, m.stadium = some sid →
        nullMatchRefs (pitchIdsOfStadium db sid) (some sid) m
          ∈ (deleteCricStadium db sid).matchList ∧
        (nullMatchRefs (pitchIdsOfStadium db sid) (some sid) m).id = m.id ∧
        (nullMatchRefs (pitchIdsOfStadium db sid) (some sid) m).stadium = none) := by
  intro db sid
  refine ⟨?_, ?_, ?_⟩
  · intro p hp heq
    simp only [deleteCricStadium, deletePitchSet] at hp
    obtain ⟨hmem, hcond⟩ := List.mem_filter.mp hp
    have hid : p.id ∈ pitchIdsOfStadium db sid := by
      unfold pitchIdsOfStadium
      exact List.mem_map_of_mem CPitch.id
        (List.mem_filter.mpr ⟨hmem, by simp [heq]⟩)
    simp [hid] at hcond
  · simp [deleteCricStadium, deletePitchSet]
  · intro m hm hsid
    refine ⟨?_, rfl, ?_⟩
    · simp only [deleteCricStadium, deletePitchSet]
      exact List.mem_map_of_mem (nullMatchRefs (pitchIdsOfStadium db sid) (some sid)) hm
    · simp [nullMatchRefs, hsid]

/-- C8: deleting a Pitch deletes every PitchSnapshot, SoilSample,
SatelliteImage, CameraImage and PitchMetric belonging to it, while every
SensorDevice referencing that Pitch survives with its pitch reference set to
null. -/
theorem pitch_delete_cascade :
    ∀ (db : CricDB) (pid : Nat),
      (∀ s ∈ (deleteCricPitch db pid).snapshots, s.pitch ≠ pid) ∧
      (∀ s ∈ (deleteCricPitch db pid).soilSamples, s.pitch ≠ pid) ∧
      (∀ i ∈ (deleteCricPitch db pid).satImages, i.pitch ≠ some pid) ∧
      (∀ i ∈ (deleteCricPitch db pid).camImages, i.pitch ≠ some pid) ∧
      (∀ k ∈ (deleteCricPitch db pid).metrics, k.pitch ≠ pid) ∧
      ((deleteCricPitch db pid).devices.length = db.devices.length) ∧
      (∀ d ∈ db.devices, d.pitch = some pid →
        nullDevicePitch [pid] d ∈ (deleteCricPitch db pid).devices ∧
        (nullDevicePitch [pid] d).id = d.id ∧
        (nullDevicePitch [pid] d).pitch = none) := by
  intro db pid
  refine ⟨?_, ?_, ?_, ?_, ?_, ?_, ?_⟩
  · intro s hs heq
    simp only [deleteCricPitch, deletePitchSet] at hs
    obtain ⟨hmem, hcond⟩ := List.mem_filter.mp hs
    simp [heq] at hcond
  · intro s hs heq
    simp only [deleteCricPitch, deletePitchSet] at hs
    obtain ⟨hmem, hcond⟩ := List.mem_filter.mp hs
    simp [heq] at hcond
  · intro i hi heq
    simp only [deleteCricPitch, deletePitchSet] at hi
    obtain ⟨hmem, hcond⟩ := List.mem_filter.mp hi
    simp [optMem, heq] at hcond
  · intro i hi heq
    simp only [deleteCricPitch, deletePitchSet] at hi
    obtain ⟨hmem, hcond⟩ := List.mem_filter.mp hi
    simp [optMem, heq] at hcond
  · intro k hk heq
    simp only [deleteCricPitch, deletePitchSet] at hk
    obtain ⟨hmem, hcond⟩ := List.mem_filter.mp hk
    simp [heq] at hcond
  · simp [deleteCricPitch, deletePitchSet]
  · intro d hd hpitch
    refine ⟨?_, ?_, ?_⟩
    · simp only [deleteCricPitch, deletePitchSet]
      exact List.mem_map_of_mem (nullDevicePitch [pid]) hd
    · simp [nullDevicePitch, optMem, hpitch]
    · simp [nullDevicePitch, optMem, hpitch]

/-- C9: deleting a SensorDevice deletes every SensorReading belonging to that
device, and every other reading survives. -/
theorem device_delete_cascade :
    ∀ (db : CricDB) (did : Nat),
      (∀ r ∈ (deleteDevice db did).readings, r.device ≠ did) ∧
      (∀ r ∈ db.readings, r.device ≠ did → r ∈ (deleteDevice db did).readings) := by
  intro db did
  constructor
  · intro r hr heq
    simp only [deleteDevice] at hr
    obtain ⟨hmem, hcond⟩ := List.mem_filter.mp hr
    simp [heq] at hcond
  · intro r hr hne
    simp only [deleteDevice]
    exact List.mem_filter.mpr ⟨hr, by simp [hne]⟩

/-- A concrete `cric.py` database used by the witnesses: stadium 1 owns pitch
1, pitch 2 belongs to stadium 2, and the children are split between the two
pitches. -/
def wDB : CricDB :=
  { stadiums := [⟨1, "Newlands", "newlands"⟩],
    features := [⟨1, 1, "soil", "clay"⟩],
    pitches := [⟨1, 1⟩, ⟨2, 2⟩],
    snapshots := [⟨1, 1⟩, ⟨2, 2⟩],
    soilSamples := [⟨1, 1⟩, ⟨2, 2⟩],
    devices := [⟨1, "dev-1", some 1⟩],
    readings := [⟨1, 1⟩, ⟨2, 2⟩],
    satImages := [⟨1, some 1⟩, ⟨2, some 2⟩],
    camImages := [⟨1, some 1⟩, ⟨2, some 2⟩],
    matchList := [⟨1, some 1, some 1⟩],
    overs := [⟨1, 1, 1⟩],
    metrics := [⟨1, 1, "2024-01-01"⟩, ⟨2, 2, "2024-01-02"⟩] }

/-- Witness for C6: each duplicate insert into `wDB` is rejected unchanged. -/
theorem unique_constraints_reject_witness :
    insertCricStadium wDB ⟨2, "Newlands B", "newlands"⟩ = (wDB, false) ∧
    insertFeature wDB ⟨2, 1, "soil", "loam"⟩ = (wDB, false) ∧
    insertOver wDB ⟨2, 1, 1⟩ = (wDB, false) ∧
    insertMetric wDB ⟨3, 1, "2024-01-01"⟩ = (wDB, false) :=
  ⟨unique_constraints_reject.1 wDB ⟨2, "Newlands B", "newlands"⟩
     ⟨1, "Newlands", "newlands"⟩ (by decide) rfl,
   unique_constraints_reject.2.1 wDB ⟨2, 1, "soil", "loam"⟩
     ⟨1, 1, "soil", "clay"⟩ (by decide) rfl rfl,
   unique_constraints_reject.2.2.1 wDB ⟨2, 1, 1⟩ ⟨1, 1, 1⟩ (by decide) rfl rfl,
   unique_constraints_reject.2.2.2 wDB ⟨3, 1, "2024-01-01"⟩
     ⟨1, 1, "2024-01-01"⟩ (by decide) rfl rfl⟩

/-- Witness for C7 on `wDB`: the surviving pitch is not stadium 1's, the match
count is preserved, and the match referencing stadium 1 survives nulled. -/
theorem stadium_delete_cascade_witness :
    ((⟨2, 2⟩ : CPitch).stadium ≠ 1) ∧
    (deleteCricStadium wDB 1).matchList.length = wDB.matchList.length ∧
    (nullMatchRefs (pitchIdsOfStadium wDB 1) (some 1) ⟨1, some 1, some 1⟩
       ∈ (deleteCricStadium wDB 1).matchList ∧
     (nullMatchRefs (pitchIdsOfStadium wDB 1) (some 1) ⟨1, some 1, some 1⟩).id
       = (⟨1, some 1, some 1⟩ : CMatch).id ∧
     (nullMatchRefs (pitchIdsOfStadium wDB 1) (some 1) ⟨1, some 1, some 1⟩).stadium
       = none) :=
  ⟨(stadium_delete_cascade wDB 1).1 ⟨2, 2⟩ (by decide),
   (stadium_delete_cascade wDB 1).2.1,
   (stadium_delete_cascade wDB 1).2.2 ⟨1, some 1, some 1⟩ (by decide) rfl⟩

/-- Witness for C8 on `wDB`: each surviving child belongs to pitch 2, device
counts are preserved, and the device on pitch 1 survives nulled. -/
theorem pitch_delete_cascade_witness :
    ((⟨2, 2⟩ : CSnapshot).pitch ≠ 1) ∧
    ((⟨2, 2⟩ : CSoilSample).pitch ≠ 1) ∧
    ((⟨2, some 2⟩ : CImage).pitch ≠ some 1) ∧
    ((⟨2, 2, "2024-01-02"⟩ : CMetric).pitch ≠ 1) ∧
    (deleteCricPitch wDB 1).devices.length = wDB.devices.length ∧
    (nullDevicePitch [1] ⟨1, "dev-1", some 1⟩ ∈ (deleteCricPitch wDB 1).devices ∧
     (nullDevicePitch [1] ⟨1, "dev-1", some 1⟩).id = (⟨1, "dev-1", some 1⟩ : CDevice).id ∧
     (nullDevicePitch [1] ⟨1, "dev-1", some 1⟩).pitch = none) :=
  ⟨(pitch_delete_cascade wDB 1).1 ⟨2, 2⟩ (by decide),
   (pitch_delete_cascade wDB 1).2.1 ⟨2, 2⟩ (by decide),
   (pitch_delete_cascade wDB 1).2.2.1 ⟨2, some 2⟩ (by decide),
   (pitch_delete_cascade wDB 1).2.2.2.2.1 ⟨2, 2, "2024-01-02"⟩ (by decide),
   (pitch_delete_cascade wDB 1).2.2.2.2.2.1,
   (pitch_delete_cascade wDB 1).2.2.2.2.2.2 ⟨1, "dev-1", some 1⟩ (by decide) rfl⟩

/-- Witness for C9 on `wDB`: the reading of device 2 survives the deletion of
device 1. -/
theorem device_delete_cascade_witness :
    ((⟨2, 2⟩ : CReading).device ≠ 1) ∧
    (⟨2, 2⟩ : CReading) ∈ (deleteDevice wDB 1).readings :=
  ⟨(device_delete_cascade wDB 1).1 ⟨2, 2⟩ (by decide),
   (device_delete_cascade wDB 1).2 ⟨2, 2⟩ (by decide) (by decide)⟩
